import Mathlib

/-!
Shallow embedding of the autoswap-rust-sdk numeric codec, typed value model
and calldata serializer, together with theorems settling the frozen claims
about them.

Conventions of the embedding:
* a Starknet field element (`Felt`) is a natural number reduced modulo the
  STARK prime; `Felt.ofNat` is `Felt::from` for machine integers and every
  constructor in the source goes through it;
* Rust `u128` values are natural numbers together with a `< 2 ^ 128` bound
  where it matters; wrapping operators (`&`, `>>`, `<<`, `|`) are the
  corresponding `Nat` bitwise operators with explicit `% 2 ^ 128` where the
  Rust operator wraps;
* fallible Rust code returns `Except`; a Rust panic (out-of-bounds index,
  `unwrap` on an error) is modelled by `none` in an outer `Option`.
-/

namespace AutoswapSDK

/-- The STARK prime: the modulus of the Starknet field element type. -/
def PRIME : Nat := 2 ^ 251 + 17 * 2 ^ 192 + 1

/-- A Starknet field element (`starknet::core::types::Felt`): an unsigned
integer in canonical form below `PRIME`. -/
structure Felt where
  val : Nat
deriving DecidableEq, Repr

/-- Construction of a field element from a machine integer
(`Felt::from`): the value is reduced into canonical form. -/
def Felt.ofNat (n : Nat) : Felt := ⟨n % PRIME⟩

/-- Bound used by the `u128` conversions. -/
def U128_MOD : Nat := 2 ^ 128

/-- The fallible conversion `Felt -> u128` (`TryInto`): succeeds exactly
when the canonical value fits in 128 bits. -/
def feltTryIntoU128 (f : Felt) : Option Nat :=
  if f.val < U128_MOD then some f.val else none

/-- The fallible conversion `Felt -> u8`. -/
def feltTryIntoU8 (f : Felt) : Option Nat :=
  if f.val < 256 then some f.val else none

/-- The fallible conversion `Felt -> u16`. -/
def feltTryIntoU16 (f : Felt) : Option Nat :=
  if f.val < 65536 then some f.val else none

/-- Serialization of a Rust `bool` as a field element 0 or 1, as written
inline at every call site in `contracts.rs`
(`Felt::from(if b { 1 } else { 0 })`). -/
def boolToFelt (b : Bool) : Felt := Felt.ofNat (if b then 1 else 0)

/-- `conversions::u128_to_uint256` from `src/contracts.rs`
(textually identical to `u128_to_uint256` in `src/constant/util.rs`):

```rust
let amount_low = Felt::from(amount & 0xFFFFFFFFFFFFFFFF);
let amount_high = Felt::from(amount >> 64);
(amount_low, amount_high)
```

Note that the mask is 64 bits wide, so the split is at bit 64. -/
def u128_to_uint256 (amount : Nat) : Felt × Felt :=
  (Felt.ofNat (amount &&& 0xFFFFFFFFFFFFFFFF), Felt.ofNat (amount >>> 64))

/-- `conversions::uint256_to_u128` from `src/contracts.rs`:

```rust
let low_u128: u128 = low.try_into().unwrap_or(0);
let high_u128: u128 = high.try_into().unwrap_or(0);
low_u128 | (high_u128 << 64)
```

The `u128` shift wraps modulo `2 ^ 128`. -/
def uint256_to_u128 (low high : Felt) : Nat :=
  let low_u128 := (feltTryIntoU128 low).getD 0
  let high_u128 := (feltTryIntoU128 high).getD 0
  low_u128 ||| ((high_u128 <<< 64) % U128_MOD)

/-- Value of one hexadecimal digit character, if it is one. -/
def hexDigit (c : Char) : Option Nat :=
  if '0' ≤ c ∧ c ≤ '9' then some (c.toNat - '0'.toNat)
  else if 'a' ≤ c ∧ c ≤ 'f' then some (c.toNat - 'a'.toNat + 10)
  else if 'A' ≤ c ∧ c ≤ 'F' then some (c.toNat - 'A'.toNat + 10)
  else none

/-- Value of a big-endian hexadecimal digit string; `none` on any
non-digit character. -/
def hexValue : List Char → Nat → Option Nat
  | [], acc => some acc
  | c :: cs, acc =>
    match hexDigit c with
    | some d => hexValue cs (acc * 16 + d)
    | none => none

/-- Removal of an optional leading `0x` marker from a hex string. -/
def dropHexMarker : List Char → List Char
  | '0' :: 'x' :: rest => rest
  | '0' :: 'X' :: rest => rest
  | cs => cs

/-- `Felt::from_hex`: parse a hex string (optional `0x` marker) into a
canonical field element; fails on an empty body, a non-hex character, or a
value outside the field's canonical range. -/
def felt_from_hex (s : String) : Option Felt :=
  let body := dropHexMarker s.toList
  if body.isEmpty then none
  else
    match hexValue body 0 with
    | some v => if v < PRIME then some (Felt.mk v) else none
    | none => none

/-- The `ContractError` enum of `src/contracts.rs`. The payload is the
formatted message carried by each variant. -/
inductive ContractError where
  | ProviderError : String → ContractError
  | AccountError : String → ContractError
  | CallFailed : String → ContractError
  | InvalidAddress : String → ContractError
  | SerializationError : String → ContractError
  | DeserializationError : String → ContractError
deriving DecidableEq, Repr

/-- The two-limb `Uint256` of `src/types/connector.rs`
(`low: u128, high: u128`). -/
structure Uint256 where
  low : Nat
  high : Nat
deriving DecidableEq, Repr

/-- The `FeeType` enum of `src/types/connector.rs`. -/
inductive FeeType where
  | Fixed
  | Percentage
deriving DecidableEq, Repr

/-- `FeeType::to_u8` from `src/types/connector.rs`. -/
def FeeType.to_u8 : FeeType → Nat
  | FeeType.Fixed => 0
  | FeeType.Percentage => 1

/-- `FeeType::from_u8` from `src/types/connector.rs`: byte 0 maps to
`Fixed`, every other byte falls into the catch-all arm and maps to
`Percentage`. -/
def FeeType.from_u8 (value : Nat) : FeeType :=
  match value with
  | 0 => FeeType.Fixed
  | _ => FeeType.Percentage

/-- A call as handed to the account for execution: target contract,
entry-point name (resolved to a selector by `get_selector_from_name`,
which is deterministic in the name), and calldata words. -/
structure Call where
  to_addr : Felt
  selector : String
  calldata : List Felt
deriving DecidableEq, Repr

/-- The decimal rendering `Felt::to_string` used when storing addresses
into `ContractInfo`. -/
def felt_display (f : Felt) : String := toString f.val

/-- Byte extraction loop of `conversions::felt_to_ascii_string`: walk up
to 8 low-order bytes, stop at the first zero byte, keep only printable
ASCII bytes (32..=126). Bytes are produced low-order first, exactly as the
Rust loop pushes them. -/
def extract_ascii_bytes : Nat → Nat → List Nat
  | 0, _ => []
  | fuel + 1, temp =>
    let byte := temp % 256
    if byte = 0 then []
    else if 32 ≤ byte ∧ byte ≤ 126 then byte :: extract_ascii_bytes fuel (temp / 256)
    else extract_ascii_bytes fuel (temp / 256)

/-- `String::from_utf8` restricted to the byte lists this codebase can
produce: a list of ASCII bytes decodes to the corresponding string, any
byte above 127 would make the one-byte-per-character decoding fail. -/
def string_from_utf8 (bytes : List Nat) : Option String :=
  if bytes.all (fun b => b < 128) then some (String.mk (bytes.map Char.ofNat))
  else none

/-- The `format!` hex fallback rendering of a field element used by
`felt_to_ascii_string`: `0x` followed by the lowercase hex digits. -/
def felt_hex_fallback (f : Felt) : String :=
  "0x" ++ String.mk (Nat.toDigits 16 f.val)

/-- `conversions::felt_to_ascii_string` from `src/contracts.rs`: convert
the felt to `u128` (or 0 on failure), extract up to 8 printable low-order
bytes stopping at the first zero byte, reverse them, and decode as UTF-8,
falling back to a hex rendering if the decoding fails. -/
def felt_to_ascii_string (f : Felt) : String :=
  let felt_value := (feltTryIntoU128 f).getD 0
  let bytes := (extract_ascii_bytes 8 felt_value).reverse
  match string_from_utf8 bytes with
  | some s => s
  | none => felt_hex_fallback f

namespace Contracts

/-- Entry point name `abi::EKUBO_SWAP`. -/
def EKUBO_SWAP : String := "ekubo_swap"

/-- Entry point name `abi::EKUBO_MANUAL_SWAP`. -/
def EKUBO_MANUAL_SWAP : String := "ekubo_manual_swap"

/-- The signed amount as consumed by `AutoSwapprContract::ekubo_swap`: the
function body reads `amount.mag.low` and `amount.sign`, so the magnitude is
a two-limb `Uint256`. -/
structure SwapAmount where
  mag : Uint256
  sign : Bool
deriving DecidableEq, Repr

/-- The swap parameters as consumed by `AutoSwapprContract::ekubo_swap`
(`params.amount`, `params.sqrt_ratio_limit.low`, `params.is_token1`,
`params.skip_ahead`). -/
structure SwapParameters where
  amount : SwapAmount
  sqrt_ratio_limit : Uint256
  is_token1 : Bool
  skip_ahead : Nat
deriving DecidableEq, Repr

/-- The pool key as consumed by `AutoSwapprContract::ekubo_swap`: the
token and extension fields are hex address strings parsed with
`Felt::from_hex`, fee and tick spacing are `u128` machine integers. -/
structure PoolKey where
  token0 : String
  token1 : String
  fee : Nat
  tick_spacing : Nat
  extension : String
deriving DecidableEq, Repr

/-- The swap data as consumed by `AutoSwapprContract::ekubo_swap`. -/
structure SwapData where
  params : SwapParameters
  pool_key : PoolKey
  caller : String
deriving DecidableEq, Repr

/-- Calldata construction of `AutoSwapprContract::ekubo_swap`
(`src/contracts.rs`): the words are pushed in the order
amount magnitude low limb, amount magnitude high limb, sign,
sqrt ratio limit low limb, sqrt ratio limit high limb, is_token1,
skip_ahead, pool token0, pool token1, fee, tick spacing, extension,
caller; each failed address parse aborts with `InvalidAddress`. -/
def ekubo_swap_calldata (swap_data : SwapData) : Except ContractError (List Felt) :=
  let al := u128_to_uint256 swap_data.params.amount.mag.low
  let sq := u128_to_uint256 swap_data.params.sqrt_ratio_limit.low
  match felt_from_hex swap_data.pool_key.token0 with
  | none => Except.error (ContractError.InvalidAddress swap_data.pool_key.token0)
  | some token0 =>
    match felt_from_hex swap_data.pool_key.token1 with
    | none => Except.error (ContractError.InvalidAddress swap_data.pool_key.token1)
    | some token1 =>
      match felt_from_hex swap_data.pool_key.extension with
      | none => Except.error (ContractError.InvalidAddress swap_data.pool_key.extension)
      | some extension =>
        match felt_from_hex swap_data.caller with
        | none => Except.error (ContractError.InvalidAddress swap_data.caller)
        | some caller =>
          Except.ok [al.1, al.2, boolToFelt swap_data.params.amount.sign,
            sq.1, sq.2, boolToFelt swap_data.params.is_token1,
            Felt.ofNat swap_data.params.skip_ahead,
            token0, token1,
            Felt.ofNat swap_data.pool_key.fee,
            Felt.ofNat swap_data.pool_key.tick_spacing,
            extension, caller]

/-- Calldata construction of `AutoSwapprContract::ekubo_manual_swap`
(`src/contracts.rs`), which repeats the serialization code of
`ekubo_swap` verbatim. -/
def ekubo_manual_swap_calldata (swap_data : SwapData) : Except ContractError (List Felt) :=
  let al := u128_to_uint256 swap_data.params.amount.mag.low
  let sq := u128_to_uint256 swap_data.params.sqrt_ratio_limit.low
  match felt_from_hex swap_data.pool_key.token0 with
  | none => Except.error (ContractError.InvalidAddress swap_data.pool_key.token0)
  | some token0 =>
    match felt_from_hex swap_data.pool_key.token1 with
    | none => Except.error (ContractError.InvalidAddress swap_data.pool_key.token1)
    | some token1 =>
      match felt_from_hex swap_data.pool_key.extension with
      | none => Except.error (ContractError.InvalidAddress swap_data.pool_key.extension)
      | some extension =>
        match felt_from_hex swap_data.caller with
        | none => Except.error (ContractError.InvalidAddress swap_data.caller)
        | some caller =>
          Except.ok [al.1, al.2, boolToFelt swap_data.params.amount.sign,
            sq.1, sq.2, boolToFelt swap_data.params.is_token1,
            Felt.ofNat swap_data.params.skip_ahead,
            token0, token1,
            Felt.ofNat swap_data.pool_key.fee,
            Felt.ofNat swap_data.pool_key.tick_spacing,
            extension, caller]

/-- The call built and submitted by `AutoSwapprContract::ekubo_swap`. -/
def ekubo_swap_call (contract_address : Felt) (swap_data : SwapData) :
    Except ContractError Call :=
  match ekubo_swap_calldata swap_data with
  | Except.error e => Except.error e
  | Except.ok calldata => Except.ok ⟨contract_address, EKUBO_SWAP, calldata⟩

/-- The call built and submitted by `AutoSwapprContract::ekubo_manual_swap`. -/
def ekubo_manual_swap_call (contract_address : Felt) (swap_data : SwapData) :
    Except ContractError Call :=
  match ekubo_manual_swap_calldata swap_data with
  | Except.error e => Except.error e
  | Except.ok calldata => Except.ok ⟨contract_address, EKUBO_MANUAL_SWAP, calldata⟩

/-- The `Route` struct of `src/contracts.rs` used by `avnu_swap`. -/
structure Route where
  token_from : Felt
  token_to : Felt
  exchange_address : Felt
  percent : Nat
  additional_swap_params : List Felt
deriving DecidableEq, Repr

/-- Per-route serialization loop body of `AutoSwapprContract::avnu_swap`:
token_from, token_to, exchange_address, percent, then the length of
`additional_swap_params` followed by its elements. -/
def route_calldata (route : Route) : List Felt :=
  [route.token_from, route.token_to, route.exchange_address,
   Felt.ofNat route.percent,
   Felt.ofNat route.additional_swap_params.length] ++
  route.additional_swap_params

/-- Calldata construction of `AutoSwapprContract::avnu_swap`
(`src/contracts.rs`): ten fixed header words, then the route count, then
each route's words. -/
def avnu_swap_calldata (protocol_swapper token_from_address : Felt)
    (token_from_amount : Uint256) (token_to_address : Felt)
    (token_to_min_amount : Uint256) (beneficiary : Felt)
    (integrator_fee_amount_bps : Nat) (integrator_fee_recipient : Felt)
    (routes : List Route) : List Felt :=
  let tf := u128_to_uint256 token_from_amount.low
  let tm := u128_to_uint256 token_to_min_amount.low
  [protocol_swapper, token_from_address, tf.1, tf.2,
   token_to_address, tm.1, tm.2, beneficiary,
   Felt.ofNat integrator_fee_amount_bps, integrator_fee_recipient,
   Felt.ofNat routes.length] ++
  (routes.map route_calldata).flatten

/-- The `ContractInfo` struct of `src/types/connector.rs` as produced by
`get_contract_parameters`. -/
structure ContractInfo where
  fees_collector : String
  fibrous_exchange_address : String
  avnu_exchange_address : String
  oracle_address : String
  owner : String
  fee_type : FeeType
  percentage_fee : Nat
deriving DecidableEq, Repr

/-- Fee-type decoding arm inside `AutoSwapprContract::get_contract_parameters`:
0 maps to `Fixed`, 1 to `Percentage`, and the catch-all arm defaults every
other value to `Fixed`. -/
def contract_fee_type_of_raw (raw : Nat) : FeeType :=
  match raw with
  | 0 => FeeType.Fixed
  | 1 => FeeType.Percentage
  | _ => FeeType.Fixed

/-- Response decoding of `AutoSwapprContract::get_contract_parameters`
(`src/contracts.rs`): a response of fewer than 7 words is rejected with
`DeserializationError`; otherwise the five address words are rendered as
strings and the fee type and percentage fee are converted with
unwrap-or-default. -/
def get_contract_parameters_decode (result : List Felt) :
    Except ContractError ContractInfo :=
  if result.length < 7 then
    Except.error (ContractError.DeserializationError
      "Insufficient return values from contract_parameters")
  else
    let fee_type_raw := (feltTryIntoU8 ((result.get? 5).getD (Felt.ofNat 0))).getD 0
    Except.ok
      { fees_collector := felt_display ((result.get? 0).getD (Felt.ofNat 0))
        fibrous_exchange_address := felt_display ((result.get? 1).getD (Felt.ofNat 0))
        avnu_exchange_address := felt_display ((result.get? 2).getD (Felt.ofNat 0))
        oracle_address := felt_display ((result.get? 3).getD (Felt.ofNat 0))
        owner := felt_display ((result.get? 4).getD (Felt.ofNat 0))
        fee_type := contract_fee_type_of_raw fee_type_raw
        percentage_fee := (feltTryIntoU16 ((result.get? 6).getD (Felt.ofNat 0))).getD 0 }

/-- Response decoding of `Erc20Contract::allowance` (`src/contracts.rs`).
The function indexes `allowance[0]` directly, which panics on an empty
response: the panic is modelled by the outer `none`. -/
def allowance_decode (response : List Felt) : Option (Except ContractError Uint256) :=
  match response.get? 0 with
  | none => none
  | some allowance_value =>
    let allowance_u128 := (feltTryIntoU128 allowance_value).getD 0
    let lh := u128_to_uint256 allowance_u128
    some (Except.ok { low := (feltTryIntoU128 lh.1).getD 0
                      high := (feltTryIntoU128 lh.2).getD 0 })

/-- Response decoding of `Erc20Contract::balance_of` (`src/contracts.rs`),
textually identical to the allowance decoding; the direct `balance[0]`
index panics on an empty response. -/
def balance_of_decode (response : List Felt) : Option (Except ContractError Uint256) :=
  match response.get? 0 with
  | none => none
  | some balance_value =>
    let balance_u128 := (feltTryIntoU128 balance_value).getD 0
    let lh := u128_to_uint256 balance_u128
    some (Except.ok { low := (feltTryIntoU128 lh.1).getD 0
                      high := (feltTryIntoU128 lh.2).getD 0 })

/-- Response decoding of `Erc20Contract::decimals` (`src/contracts.rs`):
`decimals[0]` panics on an empty response, otherwise the word converts to
`u8` with default 18. -/
def decimals_decode (response : List Felt) : Option (Except ContractError Nat) :=
  match response.get? 0 with
  | none => none
  | some decimals_value =>
    some (Except.ok ((feltTryIntoU8 decimals_value).getD 18))

/-- Response decoding of `Erc20Contract::symbol` (`src/contracts.rs`):
`symbol[0]` panics on an empty response, otherwise the word is decoded
with `felt_to_ascii_string`. -/
def symbol_decode (response : List Felt) : Option (Except ContractError String) :=
  match response.get? 0 with
  | none => none
  | some symbol_value => some (Except.ok (felt_to_ascii_string symbol_value))

/-- Response decoding of `Erc20Contract::name` (`src/contracts.rs`):
`name[0]` panics on an empty response, otherwise the word is decoded with
`felt_to_ascii_string`. -/
def name_decode (response : List Felt) : Option (Except ContractError String) :=
  match response.get? 0 with
  | none => none
  | some name_value => some (Except.ok (felt_to_ascii_string name_value))

end Contracts

namespace Connector

/-- Token address constant `STRK` from `src/constant/mod.rs`. -/
def STRK : Felt :=
  Felt.ofNat 0x04718f5a0fc34cc1af16a1cdee98ffb20c31f5cd61d6ab07201858f4287c938d

/-- Token address constant `ETH` from `src/constant/mod.rs`. -/
def ETH : Felt :=
  Felt.ofNat 0x049d36570d4e46f48e99674bd3fcc84644ddd6b96f7c741b1562b82f9e004dc7

/-- Token address constant `USDC` from `src/constant/mod.rs`. -/
def USDC : Felt :=
  Felt.ofNat 0x053c91253bc9682c04929ca02ed00b3e423f6710d2ee7e0d5ebb06f3ecf368a8

/-- Token address constant `USDT` from `src/constant/mod.rs`. -/
def USDT : Felt :=
  Felt.ofNat 0x068f5c6a61780768455de69077e07e89787839bf8166decfbf92b645209c0fb8

/-- Token address constant `WBTC` from `src/constant/mod.rs`. -/
def WBTC : Felt :=
  Felt.ofNat 0x03fe2b97c1fd336e750087d68b9b867997fd64a2661ff3ca5a7c771641e8e7ac

/-- The `PoolKey` struct of `src/types/connector.rs` (felt token fields). -/
structure PoolKey where
  token0 : Felt
  token1 : Felt
  fee : Nat
  tick_spacing : Nat
  extension : Felt
deriving DecidableEq, Repr

/-- `PoolKey::new` from `src/types/connector.rs`: fee and tick spacing are
selected by the destination token, defaulting to zero for unknown pairs. -/
def PoolKey.new (token0 token1 : Felt) : PoolKey :=
  if token1 = USDC then
    ⟨token0, token1, 170141183460469235273462165868118016, 1000, Felt.ofNat 0⟩
  else if token1 = USDT then
    ⟨token0, token1, 3402823669209384634633746074317682114, 19802, Felt.ofNat 0⟩
  else
    ⟨token0, token1, 0, 0, Felt.ofNat 0⟩

/-- The `I129` struct of `src/types/connector.rs` (`mag: u128, sign: bool`). -/
structure I129 where
  mag : Nat
  sign : Bool
deriving DecidableEq, Repr

/-- The `SwapParameters` struct of `src/types/connector.rs`;
`sqrt_ratio_limit` is the numeric value of the `U256` field. -/
structure SwapParameters where
  amount : I129
  is_token1 : Bool
  sqrt_ratio_limit : Nat
  skip_ahead : Nat
deriving DecidableEq, Repr

/-- `SwapParameters::new` from `src/types/connector.rs`: applies the
sentinel sqrt ratio limit `18446748437148339061` and `skip_ahead = 0`. -/
def SwapParameters.new (amount : I129) (is_token1 : Bool) : SwapParameters :=
  ⟨amount, is_token1, 18446748437148339061, 0⟩

/-- The `SwapData` struct of `src/types/connector.rs`. -/
structure SwapData where
  params : SwapParameters
  pool_key : PoolKey
  caller : Felt
deriving DecidableEq, Repr

/-- Token metadata entry from `src/constant/mod.rs`. -/
structure TokenInfo where
  address : Felt
  symbol : String
  decimals : Nat
  name : String
deriving DecidableEq, Repr

/-- The token table built by `TokenAddress::new` in `src/constant/mod.rs`. -/
def token_table : List TokenInfo :=
  [⟨ETH, "ETH", 18, "Ether"⟩,
   ⟨USDC, "USDC", 6, "USD Coin"⟩,
   ⟨USDT, "USDT", 6, "Tether USD"⟩,
   ⟨WBTC, "WBTC", 8, "Wrapped BTC"⟩,
   ⟨STRK, "STRK", 18, "Starknet Token"⟩]

/-- `TokenAddress::get_token_info_by_address` from `src/constant/mod.rs`. -/
def get_token_info_by_address (address : Felt) : Except String TokenInfo :=
  match token_table.find? (fun x => x.address = address) with
  | some x => Except.ok x
  | none => Except.error "TOKEN IS NOT AVAILABLE"

/-- Modelled from the spec: the derived `Encode` serialization used by
`AutoSwappr::ekubo_manual_swap` in `src/swappr.rs` comes from the external
`starknet` codec derive, which is not part of this repository's sources.
Per the spec's serializer contract it walks the struct fields in
declaration order, emitting one word per scalar and the low and high limbs
for the 256-bit field. -/
def encode_swap_data (swap_data : SwapData) : List Felt :=
  [Felt.ofNat swap_data.params.amount.mag,
   boolToFelt swap_data.params.amount.sign,
   boolToFelt swap_data.params.is_token1,
   Felt.ofNat (swap_data.params.sqrt_ratio_limit % U128_MOD),
   Felt.ofNat (swap_data.params.sqrt_ratio_limit / U128_MOD),
   Felt.ofNat swap_data.params.skip_ahead,
   swap_data.pool_key.token0, swap_data.pool_key.token1,
   Felt.ofNat swap_data.pool_key.fee,
   Felt.ofNat swap_data.pool_key.tick_spacing,
   swap_data.pool_key.extension,
   swap_data.caller]

/-- The `ErrorResponse` body returned by `AutoSwappr` operations. -/
structure ErrorResponse where
  success : Bool
  message : String
deriving DecidableEq, Repr

/-- The `SuccessResponse` body returned by `AutoSwappr` operations. -/
structure SuccessResponse where
  success : Bool
  tx_hash : Felt
deriving DecidableEq, Repr

/-- Observable side effects of `AutoSwappr::ekubo_manual_swap`, in program
order: the allowance read issued by `get_allowance`, and the transaction
submission carrying the calls handed to `execute_v3`. -/
inductive SwapEffect where
  | allowance_query
  | tx_submit (calls : List Call)
deriving DecidableEq, Repr

/-- External world for one `ekubo_manual_swap` run: the provider's answer
to the allowance call (`none` meaning a provider error) and the outcome of
the transaction submission (`none` meaning a send failure, otherwise the
transaction hash). -/
structure SwapEnv where
  allowance_response : Option (List Felt)
  exec_result : Option Felt
deriving DecidableEq, Repr

/-- The fields of the `AutoSwappr` state read by `ekubo_manual_swap`:
the configured account address string, the router contract address, and
the signer account's address felt. -/
structure SwapprState where
  account_address : String
  contract_address : Felt
  account_felt : Felt
deriving DecidableEq, Repr

/-- Decoding step of `AutoSwappr::get_allowance` in `src/swappr.rs`:
`allowance[0].to_string().trim().parse::<u128>()`. Indexing an empty
response panics (outer `none`); the decimal rendering of the word parses
back exactly when the value fits in 128 bits, otherwise `parse` fails and
the error is returned as a string. -/
def get_allowance_decode (response : List Felt) : Option (Except String Nat) :=
  match response.get? 0 with
  | none => none
  | some allowance_value =>
    if allowance_value.val < U128_MOD then some (Except.ok allowance_value.val)
    else some (Except.error "number too large to fit in target type")

/-- `AutoSwappr::ekubo_manual_swap` from `src/swappr.rs`, as a function of
the state it reads, the external world, and its three arguments. The
result is `none` when the Rust code panics (an `unwrap`/`expect`/index on
a failed step); the effect list records, in order, the allowance query and
the transaction submission with its calls. The `u128` product computing
the scaled amount wraps modulo `2 ^ 128`. -/
def ekubo_manual_swap (st : SwapprState) (env : SwapEnv)
    (token0 token1 : Felt) (swap_amount : Nat) :
    Option (Except ErrorResponse SuccessResponse) × List SwapEffect :=
  if swap_amount = 0 then
    (some (Except.error ⟨false, "SWAP AMOUNT IS ZERO"⟩), [])
  else
    match felt_from_hex st.account_address with
    | none => (none, [])
    | some _owner =>
      match env.allowance_response with
      | none => (none, [SwapEffect.allowance_query])
      | some response =>
        match get_allowance_decode response with
        | none => (none, [SwapEffect.allowance_query])
        | some (Except.error _) => (none, [SwapEffect.allowance_query])
        | some (Except.ok allowance) =>
          match get_token_info_by_address token0 with
          | Except.error _ => (none, [SwapEffect.allowance_query])
          | Except.ok info =>
            let actual_amount := (swap_amount * 10 ^ info.decimals) % U128_MOD
            let lh := u128_to_uint256 actual_amount
            let pool_key := PoolKey.new token0 token1
            let swap_parameters := SwapParameters.new ⟨actual_amount, false⟩ false
            let swap_data : SwapData := ⟨swap_parameters, pool_key, st.account_felt⟩
            let serialized := encode_swap_data swap_data
            let swap_call : Call := ⟨st.contract_address, "ekubo_manual_swap", serialized⟩
            if actual_amount ≤ allowance then
              let effects := [SwapEffect.allowance_query, SwapEffect.tx_submit [swap_call]]
              match env.exec_result with
              | some h => (some (Except.ok ⟨true, h⟩), effects)
              | none => (some (Except.error ⟨false, "FAILED TO SWAP"⟩), effects)
            else
              let approve_call : Call :=
                ⟨token0, "approve", [st.contract_address, lh.1, lh.2]⟩
              let effects :=
                [SwapEffect.allowance_query, SwapEffect.tx_submit [approve_call, swap_call]]
              match env.exec_result with
              | some h => (some (Except.ok ⟨true, h⟩), effects)
              | none => (some (Except.error ⟨false, "FAILED TO SWAP"⟩), effects)

end Connector

/-- Concrete swap data for the spec's §8.5 example: amount magnitude
`10 ^ 18`, sign false, is_token1 false, skip_ahead 0, two distinct token
addresses (STRK and USDC), fee 3000, tick spacing 60, zero extension, a
caller address. -/
def exampleSwapData : Contracts.SwapData :=
  { params :=
      { amount := { mag := { low := 10 ^ 18, high := 0 }, sign := false }
        sqrt_ratio_limit := { low := 0, high := 0 }
        is_token1 := false
        skip_ahead := 0 }
    pool_key :=
      { token0 := "0x04718f5a0fc34cc1af16a1cdee98ffb20c31f5cd61d6ab07201858f4287c938d"
        token1 := "0x053c91253bc9682c04929ca02ed00b3e423f6710d2ee7e0d5ebb06f3ecf368a8"
        fee := 3000
        tick_spacing := 60
        extension := "0x0" }
    caller := "0x1234" }

/-- Concrete route with a two-element auxiliary parameter list and a
percent different from 2, exercising the Route serialization layout. -/
def c4Route : Contracts.Route :=
  { token_from := Felt.ofNat 1
    token_to := Felt.ofNat 2
    exchange_address := Felt.ofNat 3
    percent := 5
    additional_swap_params := [Felt.ofNat 11, Felt.ofNat 12] }

/-! Theorems. -/

/-- Construction of a small field element is injective into `u128`: the
fallible conversion recovers any value below `2 ^ 128`. -/
theorem feltTryIntoU128_ofNat (n : Nat) (h : n < 2 ^ 128) :
    feltTryIntoU128 (Felt.ofNat n) = some n := by
  have hP : n < PRIME := lt_of_lt_of_le h (by norm_num [PRIME])
  have hU : n < U128_MOD := h
  unfold feltTryIntoU128 Felt.ofNat
  rw [Nat.mod_eq_of_lt hP]
  exact if_pos hU

/-- C2: the claim states that u128_to_uint256 returns
(v mod 2 ^ 128, v div 2 ^ 128), i.e. (v, 0) for every u128 value v,
including values at or above 2 ^ 64. The code masks with the 64-bit
constant 0xFFFFFFFFFFFFFFFF and shifts by 64, so at the failing input
v = 2 ^ 64 it returns (0, 1) instead of (2 ^ 64, 0): the bit-64 split
contradicts both the function's own comments in contracts.rs
(which say 128 bits) and the documented canonical limb convention. -/
theorem C2_u128_to_uint256_splits_at_bit_64 :
    u128_to_uint256 (2 ^ 64) = (Felt.ofNat 0, Felt.ofNat 1) ∧
    u128_to_uint256 (2 ^ 64) ≠ (Felt.ofNat (2 ^ 64 % 2 ^ 128), Felt.ofNat (2 ^ 64 / 2 ^ 128)) := by
  decide

/-- C3: decoding the limb pair produced by encoding gives back the value:
for every u128 input v, uint256_to_u128 applied to the two words returned
by u128_to_uint256 v equals v. The encoder splits at bit 64 and the
decoder recombines with a 64-bit shift, so the round trip is the
identity on the whole u128 range. -/
theorem C3_uint256_roundtrip (v : Nat) (h : v < 2 ^ 128) :
    uint256_to_u128 (u128_to_uint256 v).1 (u128_to_uint256 v).2 = v := by
  have h64 : (0xFFFFFFFFFFFFFFFF : Nat) = 2 ^ 64 - 1 := by norm_num
  have hlo : v &&& 0xFFFFFFFFFFFFFFFF = v % 2 ^ 64 := by
    rw [h64, Nat.and_pow_two_sub_one_eq_mod]
  have hhi : v >>> 64 = v / 2 ^ 64 := Nat.shiftRight_eq_div_pow v 64
  have hlo_lt : v % 2 ^ 64 < 2 ^ 64 := Nat.mod_lt _ (by norm_num)
  have hhi_lt : v / 2 ^ 64 < 2 ^ 64 := by
    apply Nat.div_lt_of_lt_mul
    have hmul : (2 : Nat) ^ 64 * 2 ^ 64 = 2 ^ 128 := by norm_num
    rw [hmul]
    exact h
  simp only [uint256_to_u128, u128_to_uint256, hlo, hhi]
  rw [feltTryIntoU128_ofNat _ (lt_trans hlo_lt (by norm_num)),
    feltTryIntoU128_ofNat _ (lt_trans hhi_lt (by norm_num))]
  simp only [Option.getD_some]
  have hprod : (v / 2 ^ 64) <<< 64 < 2 ^ 128 := by
    rw [Nat.shiftLeft_eq]
    calc v / 2 ^ 64 * 2 ^ 64 < 2 ^ 64 * 2 ^ 64 :=
          mul_lt_mul_of_pos_right hhi_lt (by norm_num)
    _ = 2 ^ 128 := by norm_num
  rw [show U128_MOD = 2 ^ 128 from rfl, Nat.mod_eq_of_lt hprod, Nat.shiftLeft_eq,
    Nat.lor_comm, Nat.mul_comm (v / 2 ^ 64), ← Nat.mul_add_lt_is_or hlo_lt]
  exact Nat.div_add_mod v (2 ^ 64)

/-- Witness for C3 at a value at and above the 64-bit boundary. -/
theorem C3_uint256_roundtrip_witness :
    (2 ^ 64 + 12345 : Nat) < 2 ^ 128 ∧
    uint256_to_u128 (u128_to_uint256 (2 ^ 64 + 12345)).1
      (u128_to_uint256 (2 ^ 64 + 12345)).2 = 2 ^ 64 + 12345 :=
  ⟨by norm_num, C3_uint256_roundtrip (2 ^ 64 + 12345) (by norm_num)⟩

/-- C1: for every SwapData whose four address strings parse as valid hex,
the calldata built by ekubo_swap is exactly the 13-word sequence
[amount magnitude low limb, amount magnitude high limb, sign as 0 or 1,
sqrt_ratio_limit low limb, sqrt_ratio_limit high limb, is_token1 as 0 or
1, skip_ahead, pool token0, pool token1, pool fee, pool tick_spacing,
pool extension, caller], in this order with these values. -/
theorem C1_ekubo_swap_calldata_layout (sd : Contracts.SwapData)
    (token0 token1 extension caller : Felt)
    (h0 : felt_from_hex sd.pool_key.token0 = some token0)
    (h1 : felt_from_hex sd.pool_key.token1 = some token1)
    (h2 : felt_from_hex sd.pool_key.extension = some extension)
    (h3 : felt_from_hex sd.caller = some caller) :
    Contracts.ekubo_swap_calldata sd = Except.ok
      [(u128_to_uint256 sd.params.amount.mag.low).1,
       (u128_to_uint256 sd.params.amount.mag.low).2,
       boolToFelt sd.params.amount.sign,
       (u128_to_uint256 sd.params.sqrt_ratio_limit.low).1,
       (u128_to_uint256 sd.params.sqrt_ratio_limit.low).2,
       boolToFelt sd.params.is_token1,
       Felt.ofNat sd.params.skip_ahead,
       token0, token1,
       Felt.ofNat sd.pool_key.fee,
       Felt.ofNat sd.pool_key.tick_spacing,
       extension, caller] ∧
    Except.map List.length (Contracts.ekubo_swap_calldata sd) = Except.ok 13 := by
  have hmain : Contracts.ekubo_swap_calldata sd = Except.ok
      [(u128_to_uint256 sd.params.amount.mag.low).1,
       (u128_to_uint256 sd.params.amount.mag.low).2,
       boolToFelt sd.params.amount.sign,
       (u128_to_uint256 sd.params.sqrt_ratio_limit.low).1,
       (u128_to_uint256 sd.params.sqrt_ratio_limit.low).2,
       boolToFelt sd.params.is_token1,
       Felt.ofNat sd.params.skip_ahead,
       token0, token1,
       Felt.ofNat sd.pool_key.fee,
       Felt.ofNat sd.pool_key.tick_spacing,
       extension, caller] := by
    unfold Contracts.ekubo_swap_calldata
    rw [h0, h1, h2, h3]
  exact ⟨hmain, by rw [hmain]; rfl⟩

/-- Witness for C1 at the spec's concrete example: magnitude 10 ^ 18
(whose 64-bit limbs are 10 ^ 18 and 0), sign false, is_token1 false,
skip_ahead 0, the STRK and USDC token addresses, fee 3000, tick spacing
60, zero extension. -/
theorem C1_ekubo_swap_calldata_layout_witness :
    Contracts.ekubo_swap_calldata exampleSwapData = Except.ok
      [Felt.ofNat (10 ^ 18), Felt.ofNat 0, Felt.ofNat 0, Felt.ofNat 0,
       Felt.ofNat 0, Felt.ofNat 0, Felt.ofNat 0,
       Felt.mk 0x04718f5a0fc34cc1af16a1cdee98ffb20c31f5cd61d6ab07201858f4287c938d,
       Felt.mk 0x053c91253bc9682c04929ca02ed00b3e423f6710d2ee7e0d5ebb06f3ecf368a8,
       Felt.ofNat 3000, Felt.ofNat 60, Felt.mk 0, Felt.mk 0x1234] ∧
    Except.map List.length (Contracts.ekubo_swap_calldata exampleSwapData) =
      Except.ok 13 := by
  have h := C1_ekubo_swap_calldata_layout exampleSwapData
    (Felt.mk 0x04718f5a0fc34cc1af16a1cdee98ffb20c31f5cd61d6ab07201858f4287c938d)
    (Felt.mk 0x053c91253bc9682c04929ca02ed00b3e423f6710d2ee7e0d5ebb06f3ecf368a8)
    (Felt.mk 0) (Felt.mk 0x1234)
    (by decide) (by decide) (by decide) (by decide)
  refine ⟨?_, h.2⟩
  rw [h.1]
  simp only [Except.ok.injEq]
  decide

/-- C4 counterexample: the claim places the parameter-count word
immediately after the three address-like fields, i.e. at (0-based) index
3 of the route serialization, but index 3 holds the percent word; for a
route with percent 5 and a 2-element parameter list the word there is 5,
not 2. -/
theorem C4_count_word_position_counterexample :
    c4Route.additional_swap_params.length = 2 ∧
    (Contracts.route_calldata c4Route).get? 3 = some (Felt.ofNat 5) ∧
    Felt.ofNat 5 ≠ Felt.ofNat 2 := by
  decide

/-- C4 amended: in avnu_swap calldata the routes list is prefixed by its
element count, each Route is serialized as [token_from, token_to,
exchange_address, percent, parameter count, parameters...], and for every
Route with a 2-element parameter list the word after the three address
fields and the percent word equals 2, followed by exactly those 2
elements. -/
theorem C4_route_list_encoding (protocol_swapper token_from_address : Felt)
    (token_from_amount : Uint256) (token_to_address : Felt)
    (token_to_min_amount : Uint256) (beneficiary : Felt)
    (integrator_fee_amount_bps : Nat) (integrator_fee_recipient : Felt)
    (routes : List Contracts.Route) (r : Contracts.Route) (p1 p2 : Felt)
    (hr : r.additional_swap_params = [p1, p2]) :
    Contracts.avnu_swap_calldata protocol_swapper token_from_address
        token_from_amount token_to_address token_to_min_amount beneficiary
        integrator_fee_amount_bps integrator_fee_recipient routes =
      [protocol_swapper, token_from_address,
       (u128_to_uint256 token_from_amount.low).1,
       (u128_to_uint256 token_from_amount.low).2,
       token_to_address,
       (u128_to_uint256 token_to_min_amount.low).1,
       (u128_to_uint256 token_to_min_amount.low).2,
       beneficiary, Felt.ofNat integrator_fee_amount_bps,
       integrator_fee_recipient,
       Felt.ofNat routes.length] ++ (routes.map Contracts.route_calldata).flatten ∧
    Contracts.route_calldata r =
      [r.token_from, r.token_to, r.exchange_address, Felt.ofNat r.percent,
       Felt.ofNat 2, p1, p2] := by
  constructor
  · rfl
  · simp [Contracts.route_calldata, hr]

/-- Witness for C4 at a concrete single-route call. -/
theorem C4_route_list_encoding_witness :
    Contracts.avnu_swap_calldata (Felt.ofNat 90) (Felt.ofNat 91) ⟨7, 0⟩
        (Felt.ofNat 92) ⟨8, 0⟩ (Felt.ofNat 93) 4 (Felt.ofNat 94) [c4Route] =
      [Felt.ofNat 90, Felt.ofNat 91,
       (u128_to_uint256 7).1, (u128_to_uint256 7).2,
       Felt.ofNat 92,
       (u128_to_uint256 8).1, (u128_to_uint256 8).2,
       Felt.ofNat 93, Felt.ofNat 4, Felt.ofNat 94,
       Felt.ofNat 1] ++ ([c4Route].map Contracts.route_calldata).flatten ∧
    Contracts.route_calldata c4Route =
      [c4Route.token_from, c4Route.token_to, c4Route.exchange_address,
       Felt.ofNat c4Route.percent, Felt.ofNat 2, Felt.ofNat 11, Felt.ofNat 12] :=
  C4_route_list_encoding (Felt.ofNat 90) (Felt.ofNat 91) ⟨7, 0⟩ (Felt.ofNat 92)
    ⟨8, 0⟩ (Felt.ofNat 93) 4 (Felt.ofNat 94) [c4Route] c4Route
    (Felt.ofNat 11) (Felt.ofNat 12) rfl

/-- C5: the claim states that every read-response decoder returns a typed
error on a response with fewer words than its shape expects, including
the empty response. In fact every one of these decoders indexes word 0 of
the response directly, so the empty response makes each of them panic
(modelled by none) rather than return a typed error; the claim is right
about the intended design and the code is wrong. -/
theorem C5_empty_response_panics :
    Contracts.allowance_decode [] = none ∧
    Contracts.balance_of_decode [] = none ∧
    Contracts.decimals_decode [] = none ∧
    Contracts.symbol_decode [] = none ∧
    Contracts.name_decode [] = none ∧
    Connector.get_allowance_decode [] = none :=
  ⟨rfl, rfl, rfl, rfl, rfl, rfl⟩

/-- C6: get_contract_parameters rejects every provider response of fewer
than 7 words with a DeserializationError; it never panics on such a
response and never builds a partially filled ContractInfo. -/
theorem C6_short_response_deserialization_error (result : List Felt)
    (h : result.length < 7) :
    Contracts.get_contract_parameters_decode result =
      Except.error (ContractError.DeserializationError
        "Insufficient return values from contract_parameters") := by
  unfold Contracts.get_contract_parameters_decode
  exact if_pos h

/-- Witness for C6 at a concrete 5-word response. -/
theorem C6_short_response_deserialization_error_witness :
    ([Felt.ofNat 1, Felt.ofNat 2, Felt.ofNat 3, Felt.ofNat 4,
      Felt.ofNat 5] : List Felt).length < 7 ∧
    Contracts.get_contract_parameters_decode
        [Felt.ofNat 1, Felt.ofNat 2, Felt.ofNat 3, Felt.ofNat 4, Felt.ofNat 5] =
      Except.error (ContractError.DeserializationError
        "Insufficient return values from contract_parameters") :=
  ⟨by decide, C6_short_response_deserialization_error _ (by decide)⟩

/-- C7 counterexample: the claim states that a word whose low-order bytes
contain no printable ASCII bytes decodes to a hex fallback rendering. The
word 7 has no printable low bytes, yet felt_to_ascii_string returns the
empty string, not the hex rendering 0x7: the collected bytes are always
printable ASCII, so the UTF-8 decoding never fails and the fallback
branch is unreachable. -/
theorem C7_no_hex_fallback_counterexample :
    extract_ascii_bytes 8 ((feltTryIntoU128 (Felt.ofNat 7)).getD 0) = [] ∧
    felt_to_ascii_string (Felt.ofNat 7) = "" ∧
    felt_hex_fallback (Felt.ofNat 7) = "0x7" ∧
    felt_to_ascii_string (Felt.ofNat 7) ≠ felt_hex_fallback (Felt.ofNat 7) := by
  decide

/-- C7 amended: felt_to_ascii_string maps the word 0x455448 to "ETH" and
the word 0x4574686572 to "Ether"; for every word whose byte extraction is
empty (no printable ASCII bytes before the first zero byte among the 8
low-order bytes) it returns the empty string, the hex fallback being
unreachable; as a total function it never panics. -/
theorem C7_ascii_decode (f : Felt)
    (h : extract_ascii_bytes 8 ((feltTryIntoU128 f).getD 0) = []) :
    felt_to_ascii_string f = "" ∧
    felt_to_ascii_string (Felt.ofNat 0x455448) = "ETH" ∧
    felt_to_ascii_string (Felt.ofNat 0x4574686572) = "Ether" := by
  refine ⟨?_, by decide, by decide⟩
  simp [felt_to_ascii_string, h, string_from_utf8]

/-- Witness for C7 at the word 7, which has no printable low bytes. -/
theorem C7_ascii_decode_witness :
    felt_to_ascii_string (Felt.ofNat 7) = "" ∧
    felt_to_ascii_string (Felt.ofNat 0x455448) = "ETH" ∧
    felt_to_ascii_string (Felt.ofNat 0x4574686572) = "Ether" :=
  C7_ascii_decode (Felt.ofNat 7) (by decide)

/-- C8 counterexample: the claim states that FeeType::from_u8 and the
fee-type decoding inside get_contract_parameters agree on every byte; at
byte 2 from_u8 yields Percentage (catch-all arm) while the contract
decoding defaults to Fixed. -/
theorem C8_fee_type_disagreement_counterexample :
    FeeType.from_u8 2 = FeeType.Percentage ∧
    Contracts.contract_fee_type_of_raw 2 = FeeType.Fixed ∧
    FeeType.Percentage ≠ FeeType.Fixed := by
  decide

/-- C8 amended: both mappings send 0 to Fixed and 1 to Percentage and
each is individually deterministic, but they disagree on every byte value
at or above 2: from_u8 yields Percentage while the decoding inside
get_contract_parameters yields Fixed. -/
theorem C8_fee_type_byte_mapping (b : Nat) (hb : 2 ≤ b) :
    FeeType.from_u8 0 = FeeType.Fixed ∧
    FeeType.from_u8 1 = FeeType.Percentage ∧
    Contracts.contract_fee_type_of_raw 0 = FeeType.Fixed ∧
    Contracts.contract_fee_type_of_raw 1 = FeeType.Percentage ∧
    FeeType.from_u8 b = FeeType.Percentage ∧
    Contracts.contract_fee_type_of_raw b = FeeType.Fixed := by
  obtain ⟨c, rfl⟩ : ∃ c, b = c + 2 := ⟨b - 2, by omega⟩
  exact ⟨rfl, rfl, rfl, rfl, rfl, rfl⟩

/-- Witness for C8 at byte 2. -/
theorem C8_fee_type_byte_mapping_witness :
    FeeType.from_u8 0 = FeeType.Fixed ∧
    FeeType.from_u8 1 = FeeType.Percentage ∧
    Contracts.contract_fee_type_of_raw 0 = FeeType.Fixed ∧
    Contracts.contract_fee_type_of_raw 1 = FeeType.Percentage ∧
    FeeType.from_u8 2 = FeeType.Percentage ∧
    Contracts.contract_fee_type_of_raw 2 = FeeType.Fixed :=
  C8_fee_type_byte_mapping 2 (by decide)

/-- C9: for every SwapData, ekubo_swap and ekubo_manual_swap build the
same calldata word sequence (or fail with the same error), and the
submitted calls differ only in the entry-point selector: the manual call
is exactly the ekubo_swap call with its selector replaced. -/
theorem C9_manual_swap_same_calldata (contract_address : Felt)
    (sd : Contracts.SwapData) :
    Contracts.ekubo_swap_calldata sd = Contracts.ekubo_manual_swap_calldata sd ∧
    Contracts.ekubo_manual_swap_call contract_address sd =
      Except.map (fun cl => { cl with selector := Contracts.EKUBO_MANUAL_SWAP })
        (Contracts.ekubo_swap_call contract_address sd) ∧
    Contracts.EKUBO_SWAP ≠ Contracts.EKUBO_MANUAL_SWAP := by
  have hcd : Contracts.ekubo_swap_calldata sd = Contracts.ekubo_manual_swap_calldata sd := rfl
  refine ⟨hcd, ?_, by decide⟩
  unfold Contracts.ekubo_manual_swap_call Contracts.ekubo_swap_call
  rw [← hcd]
  cases Contracts.ekubo_swap_calldata sd <;> rfl

/-- C10: ekubo_manual_swap called with swap_amount 0 returns the error
response "SWAP AMOUNT IS ZERO" for every token pair, every state and
every environment, with an empty effect list: no allowance query is
issued, no calldata is built and no transaction is submitted. -/
theorem C10_zero_amount_rejected (st : Connector.SwapprState)
    (env : Connector.SwapEnv) (token0 token1 : Felt) :
    Connector.ekubo_manual_swap st env token0 token1 0 =
      (some (Except.error ⟨false, "SWAP AMOUNT IS ZERO"⟩), []) := rfl

end AutoswapSDK
